import Mathlib

set_option autoImplicit false
set_option linter.unusedVariables false
set_option linter.unnecessarySimpa false
set_option linter.unusedTactic false

namespace NarrativeService

/-! Shallow embedding of the multi-agent narrative service
(python-narrative-service).  Python dictionaries are embedded as
insertion-ordered association lists with Python assignment semantics,
database rows as Lean structures, and the database session as an explicit
state record threaded through each operation.  Asynchronous provider calls
are embedded as explicit parameters carrying the result of each external
completion call. -/

/-- Embedding of Python dict assignment d[k] = v: the first binding of k is
updated in place, and a missing key is appended at the end, preserving
insertion order as Python dicts do. -/
def dictSet {α : Type} : List (String × α) → String → α → List (String × α)
  | [], k, v => [(k, v)]
  | (k0, v0) :: rest, k, v =>
    if k0 = k then (k0, v) :: rest else (k0, v0) :: dictSet rest k v

/-- Embedding of Python dict lookup d.get(k): the value of the first binding
of k, if any. -/
def dictGet {α : Type} : List (String × α) → String → Option α
  | [], _ => none
  | (k0, v0) :: rest, k => if k0 = k then some v0 else dictGet rest k

/-- Keys of an embedded dict, in insertion order. -/
def dictKeys {α : Type} (d : List (String × α)) : List String :=
  d.map Prod.fst

/-- Values stored in a Character.traits JSON column: numbers (trait seeds and
scores), strings (current_motivation) and one nested label-to-intensity map
(emotions), which is what the orchestrator and the character service read and
write. -/
inductive TraitValue where
  | num (q : Rat)
  | str (s : String)
  | map (m : List (String × Rat))
deriving DecidableEq, Repr

/-- Embedding of the Dict[str, Any] traits column of models.Character. -/
abbrev Traits := List (String × TraitValue)

/-- Embedding of models.Story (the columns the core reads). -/
structure Story where
  id : String
  genre : String
  theme : String
  setting : Option String
deriving DecidableEq, Repr

/-- Embedding of models.StorySection (the columns the core reads). -/
structure StorySection where
  id : String
  story_id : String
  text : String
  order : Int
deriving DecidableEq, Repr

/-- Embedding of models.Character (the columns the core reads). -/
structure Character where
  id : String
  story_id : String
  name : String
  description : String
  traits : Traits
  importance : Rat
deriving DecidableEq, Repr

/-- Embedding of models.CharacterChange (the columns the core writes). -/
structure CharacterChange where
  character_id : String
  section_id : String
  change_description : String
  previous_traits : Traits
  new_traits : Traits
deriving DecidableEq, Repr

/-- Embedding of the database session state: the committed rows of the tables
the core touches.  Rows are kept in insertion order. -/
structure Db where
  stories : List Story
  characters : List Character
  sections : List StorySection
  changes : List CharacterChange
deriving DecidableEq, Repr

/-- Embedding of the Python exceptions that cross the layers modelled here:
ValueError raised by the services, fastapi HTTPException produced by
db_operation_handler, provider failures of a completion call, and the
AttributeError hit when stale story data is dereferenced. -/
inductive PyErr where
  | valueError (msg : String)
  | httpError (statusCode : Nat) (detail : String)
  | providerError
  | attributeError
deriving DecidableEq, Repr

/-- Modelled from the spec: BaseService.get_by_id, whose file services/base.py
is not part of the source tree.  Spec section 6: the persistence accessor
returns not-found as an absence (None), not an exception, for id lookup. -/
def get_by_id_story (db : Db) (story_id : String) : Option Story :=
  db.stories.find? (fun s => s.id == story_id)

/-- Modelled from the spec: BaseService.get_by_id for characters (see
get_by_id_story). -/
def get_by_id_character (db : Db) (character_id : String) : Option Character :=
  db.characters.find? (fun c => c.id == character_id)

/-- Embedding of CharacterService.get_characters_by_story_id: all character
rows of the story. -/
def get_characters_by_story_id (db : Db) (story_id : String) : List Character :=
  db.characters.filter (fun c => c.story_id == story_id)

/-- Embedding of StorySectionService.get_sections_by_story_id, as the row set
of the story.  The SQL ORDER BY order clause only affects presentation
order; the code built on it reads the rows through max and membership, which
are order independent, so the rows are kept in insertion order here. -/
def get_sections_by_story_id (db : Db) (story_id : String) : List StorySection :=
  db.sections.filter (fun s => s.story_id == story_id)

/-- Deterministic stand-in for the uuid primary key given to a new section
row. -/
def freshSectionId (db : Db) : String :=
  "section-" ++ toString db.sections.length

/-- Deterministic stand-in for the uuid primary key given to a new character
row. -/
def freshCharacterId (db : Db) : String :=
  "character-" ++ toString db.characters.length

/-- Embedding of the Python expression max(orders, default=0): the maximum
of a nonempty list, and 0 for the empty list. -/
def maxOrderDefault0 : List Int → Int
  | [] => 0
  | x :: xs => xs.foldl max x

/-- Orders 1, 2, ..., k as integers, the expected section orders after k
successful continuations of an initially sectionless story. -/
def ordersOneTo : Nat → List Int
  | 0 => []
  | k + 1 => ordersOneTo k ++ [(k : Int) + 1]

/-- Embedding of StorySectionService.add_section_to_story: reads the sections
of the story, computes the next order as max of the existing orders (default
0) plus one, inserts the new row and returns it. -/
def add_section_to_story (db : Db) (story_id : String) (text : String) :
    Db × StorySection :=
  let sections := get_sections_by_story_id db story_id
  let next_order := maxOrderDefault0 (sections.map (fun s => s.order)) + 1
  let sec : StorySection :=
    { id := freshSectionId db, story_id := story_id, text := text, order := next_order }
  ({ db with sections := db.sections ++ [sec] }, sec)

/-- Embedding of CharacterService.create_character: inserts a character row
with the given fields and returns it. -/
def create_character (db : Db) (story_id : String) (name : String)
    (description : String) (traits : Traits) (importance : Rat) :
    Db × Character :=
  let character : Character :=
    { id := freshCharacterId db, story_id := story_id, name := name,
      description := description, traits := traits, importance := importance }
  ({ db with characters := db.characters ++ [character] }, character)

/-- Replacement of a character row after db.add of a mutated loaded entity:
every row carrying the id is overwritten with the updated entity. -/
def replaceCharacter (characters : List Character) (c : Character) : List Character :=
  characters.map (fun x => if x.id = c.id then c else x)

/-- Embedding of CharacterService.update_character_traits: loads the
character (ValueError when absent), snapshots the previous traits, assigns
every binding of new_traits over the character traits, records one
CharacterChange row carrying the snapshot and the updated traits, and
commits both. -/
def update_character_traits (db : Db) (character_id : String) (section_id : String)
    (change_description : String) (new_traits : Traits) :
    Except PyErr (Db × Character) :=
  match get_by_id_character db character_id with
  | none => Except.error (PyErr.valueError
      ("Character with ID " ++ character_id ++ " not found"))
  | some character =>
    let previous_traits := character.traits
    let updated := new_traits.foldl (fun t p => dictSet t p.1 p.2) character.traits
    let character2 := { character with traits := updated }
    let change : CharacterChange :=
      { character_id := character_id, section_id := section_id,
        change_description := change_description,
        previous_traits := previous_traits, new_traits := updated }
    Except.ok
      ({ db with
          characters := replaceCharacter db.characters character2,
          changes := db.changes ++ [change] }, character2)

/-- Embedding of utils.db_operation_handler on a completed service result:
ValueError becomes HTTP 400 with the message, any other exception becomes
HTTP 500. -/
def db_operation_handler {α : Type} (r : Except PyErr α) : Except PyErr α :=
  match r with
  | Except.ok a => Except.ok a
  | Except.error (PyErr.valueError msg) => Except.error (PyErr.httpError 400 msg)
  | Except.error _ =>
    Except.error (PyErr.httpError 500 "An unexpected error occurred")

/-- Embedding of CharacterResponse, the structured output shape of the
Character agent. -/
structure CharacterResponse where
  reasoning : String
  action : String
  dialogue : Option String
  emotions : List (String × Rat)
  motivation : String
deriving DecidableEq, Repr

/-- Embedding of WorldStateResponse, the structured output shape of the
World State agent. -/
structure WorldStateResponse where
  reasoning : String
  action : String
  world_effects : List String
  consistency_issues : List String
  physics_allowed : Bool
deriving DecidableEq, Repr

/-- Embedding of NarrativeOption inside NarrativeDirectorResponse. -/
structure NarrativeOption where
  description : String
  impact_rating : Rat
  tension_change : Rat
deriving DecidableEq, Repr

/-- Embedding of NarrativeDirectorResponse, the structured output shape of
the Narrative Director agent. -/
structure NarrativeDirectorResponse where
  reasoning : String
  action : String
  narrative_options : List NarrativeOption
  selected_direction : String
  pacing_assessment : String
  tension_level : Rat
deriving DecidableEq, Repr

/-- Embedding of the Python expression response.split with newline taking
entry 0 when the response contains a newline, and response[:100] otherwise,
used by the character agent parse fallback. -/
def firstLineOrFirst100 (response : String) : String :=
  if response.data.contains '\n' then { data := response.data.takeWhile (fun c => c ≠ '\n') }
  else { data := response.data.take 100 }

/-- Embedding of CharacterAgent._process_response.  The external
JsonOutputParser is embedded as the parsed argument: some r when the raw
response parses into the structured shape, none when parsing raises. -/
def CharacterAgent_process_response (parsed : Option CharacterResponse)
    (response : String) : CharacterResponse :=
  match parsed with
  | some r => r
  | none =>
    { reasoning := "Could not parse structured response"
      action := "React to the situation"
      dialogue := some (firstLineOrFirst100 response)
      emotions := [("unknown", 1)]
      motivation := "Continue participation in the story" }

/-- Embedding of WorldStateAgent._process_response (see
CharacterAgent_process_response for the parsed argument). -/
def WorldStateAgent_process_response (parsed : Option WorldStateResponse)
    (response : String) : WorldStateResponse :=
  match parsed with
  | some r => r
  | none =>
    { reasoning := "Could not parse structured response"
      action := "Evaluate world consistency"
      world_effects := ["Unknown effects on the world"]
      consistency_issues := []
      physics_allowed := true }

/-- Embedding of NarrativeDirectorAgent._process_response (see
CharacterAgent_process_response for the parsed argument). -/
def NarrativeDirectorAgent_process_response (parsed : Option NarrativeDirectorResponse)
    (response : String) : NarrativeDirectorResponse :=
  match parsed with
  | some r => r
  | none =>
    { reasoning := "Could not parse structured response"
      action := "Direct narrative"
      narrative_options :=
        [{ description := "Continue current storyline", impact_rating := 5,
           tension_change := 0 }]
      selected_direction := "Continue with the current narrative thread"
      pacing_assessment := "Maintain current pacing"
      tension_level := 5 }

/-- Statically defined degraded output of the world state parse fallback,
written as a standalone constant to compare against the process function. -/
def worldStateParseDefault : WorldStateResponse :=
  { reasoning := "Could not parse structured response"
    action := "Evaluate world consistency"
    world_effects := ["Unknown effects on the world"]
    consistency_issues := []
    physics_allowed := true }

/-- Statically defined degraded output of the narrative director parse
fallback, written as a standalone constant to compare against the process
function. -/
def narrativeDirectorParseDefault : NarrativeDirectorResponse :=
  { reasoning := "Could not parse structured response"
    action := "Direct narrative"
    narrative_options :=
      [{ description := "Continue current storyline", impact_rating := 5,
         tension_change := 0 }]
    selected_direction := "Continue with the current narrative thread"
    pacing_assessment := "Maintain current pacing"
    tension_level := 5 }

/-- Fixed part of the character parse fallback; its dialogue field is filled
from the raw response by the process function. -/
def characterParseDefault (dialogue : Option String) : CharacterResponse :=
  { reasoning := "Could not parse structured response"
    action := "React to the situation"
    dialogue := dialogue
    emotions := [("unknown", 1)]
    motivation := "Continue participation in the story" }

/-- Character reaction as the state updater sees it: the dict returned by
CharacterAgent.run, of which _update_story_state reads the optional emotions
and motivation keys. -/
structure Reaction where
  emotions : Option (List (String × Rat))
  motivation : Option String
deriving DecidableEq, Repr

/-- Embedding of the loop of AgentOrchestrator._get_character_reactions: a
character id is consulted only when it has a registered character agent;
every other requested id is silently skipped.  The react argument embeds the
completion provider round trip of each character agent. -/
def get_character_reactions (character_agents : List String)
    (character_ids : List String) (react : String → Reaction) :
    List (String × Reaction) :=
  character_ids.foldl
    (fun acc character_id =>
      if character_id ∈ character_agents then dictSet acc character_id (react character_id)
      else acc)
    []

/-- Embedding of the guard in _update_story_state that inserts an empty
emotions dict when the copied traits have no emotions key. -/
def ensureEmotionsKey (t : Traits) : Traits :=
  if (dictGet t "emotions").isSome then t else dictSet t "emotions" (TraitValue.map [])

/-- Embedding of the nested assignment new_traits[emotions][emotion] = value
on a traits dict whose emotions entry is a nested map.  On a traits dict
whose emotions entry is not a map the Python statement raises; that state is
excluded by hypothesis wherever it matters. -/
def setEmotion (t : Traits) (emotion : String) (value : Rat) : Traits :=
  match dictGet t "emotions" with
  | some (TraitValue.map m) =>
    dictSet t "emotions" (TraitValue.map (dictSet m emotion value))
  | _ => t

/-- Traits dict built by _update_story_state before persisting: a copy of
the character traits with an emotions entry ensured, the reaction emotions
merged into it, and current_motivation set when the reaction carries a
motivation. -/
def merge_reaction_traits (t0 : Traits) (emotions : List (String × Rat))
    (motivation : Option String) : Traits :=
  let new_traits := ensureEmotionsKey t0
  let new_traits := emotions.foldl (fun t p => setEmotion t p.1 p.2) new_traits
  match motivation with
  | some m => dictSet new_traits "current_motivation" (TraitValue.str m)
  | none => new_traits

/-- Embedding of one iteration of the loop of
AgentOrchestrator._update_story_state: skip reactions without an emotions
key, load the character (skip when absent), merge the reaction emotions into
a copy of the traits, set current_motivation when the reaction has a
motivation, and persist through update_character_traits only when the story
has a latest section. -/
def apply_reaction (sections : List StorySection) (user_input : String)
    (db : Db) (entry : String × Reaction) : Db :=
  match entry.2.emotions with
  | none => db
  | some emotions =>
    match get_by_id_character db entry.1 with
    | none => db
    | some character =>
      let new_traits := merge_reaction_traits character.traits emotions entry.2.motivation
      match sections.getLast? with
      | none => db
      | some latest_section =>
        match update_character_traits db entry.1 latest_section.id
            ("Character state updated after " ++ user_input) new_traits with
        | Except.ok (db2, _) => db2
        | Except.error _ => db

/-- Embedding of AgentOrchestrator._update_story_state over the reactions
map. -/
def update_story_state (db : Db) (sections : List StorySection)
    (user_input : String) (character_reactions : List (String × Reaction)) : Db :=
  character_reactions.foldl (apply_reaction sections user_input) db

/-- Embedding of the shared lowercase-and-strip expression of both
continuation fallbacks: the user input lowercased, with its first two
characters dropped before lowercasing when the lowercased input starts with
the two characters i and space. -/
def fallbackEcho (user_input : String) : String :=
  if ¬ ((user_input.toLower).startsWith "i ") then user_input.toLower
  else (user_input.drop 2).toLower

/-- Embedding of error_handling.story_continuation_fallback applied to the
user_input argument extracted by the decorator. -/
def story_continuation_fallback (user_input : String) : String :=
  "You decide to " ++ fallbackEcho user_input ++
    ".\n\nThe world around you responds to your actions. Despite some uncertainty about what happens next, you continue forward with determination.\n\nWhat will you do next?"

/-- Embedding of AgentOrchestrator._generate_fallback_response, the response
used when the orchestrator cannot initialize; the triple-quoted source
literal keeps its indentation. -/
def generate_fallback_response (story_data : Option Story) (user_input : String) : String :=
  let genre := match story_data with | some s => s.genre | none => "science fiction"
  let theme := match story_data with | some s => s.theme | none => "exploration"
  "\n            You decide to " ++ fallbackEcho user_input ++
    ".\n                    \n            The " ++ genre ++
    " world around you responds to your actions. As you continue on your journey of " ++
    theme ++ ", you notice new details about your surroundings.\n\n            What will you do next?\n        "

/-- Embedding of the orchestrator state that the claims read: the story id,
the key set of the character_agents map, and the initialized flag. -/
structure Orchestrator where
  story_id : String
  character_agents : List String
  initialized : Bool
deriving DecidableEq, Repr

/-- Embedding of AgentOrchestrator._ensure_initialized combined with
initialize(): loading the story (failure when absent) and building one
character agent per character row of the story. -/
def ensure_initialized (db : Db) (orch : Orchestrator) : Bool × Orchestrator :=
  if orch.initialized then (true, orch)
  else
    match get_by_id_story db orch.story_id with
    | none => (false, orch)
    | some _ =>
      (true,
       { orch with
          character_agents := (get_characters_by_story_id db orch.story_id).map (fun c => c.id),
          initialized := true })

/-- Embedding of the active-character resolution step of
generate_story_continuation: with no characters in the story, create the
default Protagonist with its fixed description and trait seed and use it as
the sole active character; otherwise use all existing characters. -/
def resolve_active_characters (db : Db) (story_id : String) : Db × List String :=
  let characters := get_characters_by_story_id db story_id
  if characters.isEmpty then
    let (db2, default_character) := create_character db story_id "Protagonist"
      "The main character of the story, a rebellious figure in a dystopian world."
      [("courage", TraitValue.num 0.8), ("intelligence", TraitValue.num 0.7),
       ("determination", TraitValue.num 0.9)]
      1
    (db2, [default_character.id])
  else (db, characters.map (fun c => c.id))

/-- Synthesis and state-update tail of the continuation body: the final
completion call (which dereferences the refreshed story data, raising
AttributeError when the story row has disappeared) followed by
_update_story_state on success.  The sections the state updater reads are
the ones loaded before any new section exists. -/
def continuation_finish (db1 : Db) (orch1 : Orchestrator) (synth : Except PyErr String)
    (user_input : String) (character_reactions : List (String × Reaction)) :
    Db × Orchestrator × Except PyErr String :=
  let synthesis :=
    match get_by_id_story db1 orch1.story_id with
    | none => Except.error PyErr.attributeError
    | some _ => synth
  match synthesis with
  | Except.error e => (db1, orch1, Except.error e)
  | Except.ok continuation =>
    let sections := get_sections_by_story_id db1 orch1.story_id
    (update_story_state db1 sections user_input character_reactions, orch1,
     Except.ok continuation)

/-- Embedding of the undecorated body of
AgentOrchestrator.generate_story_continuation.  The react argument embeds
the character-agent completion calls and the synth argument embeds the final
synthesis completion call; the director, world-state and memory agent calls
only shape prompt text and never the persisted state, so they carry no
state here.  The error component propagates the exception that the
decorator will turn into fallback text. -/
def continuation_body (db : Db) (orch : Orchestrator)
    (react : String → Reaction) (synth : Except PyErr String)
    (user_input : String) (active_characters : Option (List String)) :
    Db × Orchestrator × Except PyErr String :=
  let init := ensure_initialized db orch
  if ¬ init.1 then (db, init.2, Except.ok (generate_fallback_response none user_input))
  else
    let orch1 := init.2
    let resolved :=
      match active_characters with
      | none => resolve_active_characters db orch1.story_id
      | some l => if l.isEmpty then resolve_active_characters db orch1.story_id else (db, l)
    continuation_finish resolved.1 orch1 synth user_input
      (get_character_reactions orch1.character_agents resolved.2 react)

/-- Embedding of AgentOrchestrator.generate_story_continuation with its
agent_error_handler decorator: every exception escaping the body is replaced
by the story continuation fallback text built from the user_input
argument. -/
def generate_story_continuation (db : Db) (orch : Orchestrator)
    (react : String → Reaction) (synth : Except PyErr String)
    (user_input : String) (active_characters : Option (List String)) :
    Db × Orchestrator × Except PyErr String :=
  let r := continuation_body db orch react synth user_input active_characters
  match r.2.2 with
  | Except.ok t => (r.1, r.2.1, Except.ok t)
  | Except.error _ => (r.1, r.2.1, Except.ok (story_continuation_fallback user_input))

/-- Embedding of AgentService.generate_continuation: run the orchestrator
pipeline (its decorator never lets an exception escape, so the error branch
of the inner result is unreachable), then insert a new section whose order
is max of the existing orders (default 0) plus one, and return it. -/
def AgentService_generate_continuation (db : Db) (orch : Orchestrator)
    (react : String → Reaction) (synth : Except PyErr String)
    (story_id : String) (user_input : String) :
    Db × Orchestrator × StorySection :=
  let r := generate_story_continuation db orch react synth user_input none
  let db1 := r.1
  let continuation_text :=
    match r.2.2 with
    | Except.ok t => t
    | Except.error _ => story_continuation_fallback user_input
  let sections := get_sections_by_story_id db1 story_id
  let next_order := maxOrderDefault0 (sections.map (fun s => s.order)) + 1
  let sec : StorySection :=
    { id := freshSectionId db1, story_id := story_id,
      text := continuation_text, order := next_order }
  ({ db1 with sections := db1.sections ++ [sec] }, r.2.1, sec)

/-- Per-call external environment of one continuation request: the
character-agent completion results, the synthesis completion result and the
user input. -/
structure CallEnv where
  react : String → Reaction
  synth : Except PyErr String
  user_input : String

/-- Sequence of continuation requests against the same story, each one a
full AgentService.generate_continuation call. -/
def run_continuations (story_id : String) :
    Db → Orchestrator → List CallEnv → Db × Orchestrator
  | db, orch, [] => (db, orch)
  | db, orch, e :: rest =>
    let r := AgentService_generate_continuation db orch e.react e.synth story_id e.user_input
    run_continuations story_id r.1 r.2.1 rest

/-- Embedding of the verb allowlist of _convert_to_action. -/
def verbAllowlist : List String :=
  ["go", "look", "search", "talk", "ask", "find", "use", "take", "open",
   "examine", "investigate", "explore", "approach", "run", "hide", "fight"]

/-- Embedding of the alternative verbs drawn from random.choice in
_convert_to_action. -/
def alternativeVerbs : List String :=
  ["Explore", "Investigate", "Check out", "Look for", "Talk to", "Search"]

/-- Embedding of the filler leaders stripped by _convert_to_action. -/
def fillerLeaders : List String :=
  ["The character should ", "You should ", "The protagonist should "]

/-- Embedding of AgentOrchestrator._convert_to_action.  The pick argument
embeds the random.choice draw as an index into the alternatives. -/
def convert_to_action (pick : Nat) (narrative_option : String) : String :=
  let action := narrative_option.trim
  let action :=
    fillerLeaders.foldl
      (fun a p => if a.startsWith p then a.drop p.length else a) action
  let action :=
    if verbAllowlist.any (fun verb => (action.toLower).startsWith verb) then action
    else ((alternativeVerbs.getD (pick % alternativeVerbs.length) "Explore") ++ " " ++ action)
  action.trim

/-- Embedding of AgentOrchestrator._generate_generic_suggestion. -/
def generate_generic_suggestion (index : Nat) : String :=
  let suggestions :=
    ["Explore your surroundings", "Talk to someone nearby",
     "Look for clues or useful items", "Try a different approach",
     "Think about what you\x27ve learned so far"]
  if index < suggestions.length then suggestions.getD index ""
  else suggestions.getD (suggestions.length - 1) ""

/-- Narrative option as the suggestions code sees it: a dict that may lack
the description key. -/
structure DirectorOption where
  description : Option String
deriving DecidableEq, Repr

/-- Embedding of the collection loop of generate_story_suggestions: at most
3 narrative option descriptions are converted into actionable suggestions;
the rand argument embeds one random.choice draw per conversion. -/
def collect_suggestions (rand : Nat → Nat) (options : List DirectorOption) :
    List String :=
  options.foldl
    (fun acc option =>
      if acc.length < 3 then
        match option.description with
        | some d => acc ++ [convert_to_action (rand acc.length) d]
        | none => acc
      else acc)
    []

/-- Embedding of the padding loop of generate_story_suggestions: append
generic suggestions while fewer than 3 were produced. -/
def pad_suggestions (s : List String) : List String :=
  if h : s.length < 3 then pad_suggestions (s ++ [generate_generic_suggestion s.length])
  else s
termination_by 3 - s.length
decreasing_by
  simp only [List.length_append, List.length_cons, List.length_nil]
  omega

/-- Embedding of error_handling.story_suggestions_fallback. -/
def story_suggestions_fallback : List String :=
  ["Explore your surroundings", "Talk to someone nearby", "Look for clues or useful items"]

/-- Embedding of AgentOrchestrator.generate_story_suggestions with its
decorator.  The director argument embeds the narrative_options entry of the
narrative director output (absent key, or present list); errored embeds an
exception escaping the body, which the decorator replaces by the
suggestions fallback. -/
def generate_story_suggestions (db : Db) (orch : Orchestrator) (rand : Nat → Nat)
    (director : Option (List DirectorOption)) (errored : Bool) : List String :=
  if errored then story_suggestions_fallback
  else
    let init := ensure_initialized db orch
    if ¬ init.1 then ["Explore your surroundings", "Talk to someone nearby", "Look for clues"]
    else
      let sections := get_sections_by_story_id db init.2.story_id
      match sections.getLast? with
      | none => ["Begin your adventure", "Explore your surroundings", "Talk to someone nearby"]
      | some _ =>
        let suggestions :=
          match director with
          | some options =>
            if options.isEmpty then [] else collect_suggestions rand options
          | none => []
        (pad_suggestions suggestions).take 3

/-- Embedding of the AgentService orchestrator cache: story id mapped to a
live orchestrator instance, instances identified by allocation number. -/
structure OrchestratorCache where
  entries : List (String × Nat)
  nextInstance : Nat
deriving DecidableEq, Repr

/-- Embedding of AgentService._get_orchestrator as one atomic step: the
cached instance when present, otherwise a newly constructed, initialized and
cached instance.  The call body runs atomically on the asyncio event loop:
the await on orchestrator.initialize() and everything initialize() itself
awaits (_get_story_data, _initialize_character_agents, the
track_agent_operation wrapper) have synchronous bodies over a sync
sqlmodel Session and never yield to the loop, so no other task can run
between the cache-miss check and the cache store and concurrent calls
serialize into a sequence of these atomic steps. -/
def get_orchestrator (cache : OrchestratorCache) (story_id : String) :
    Nat × OrchestratorCache :=
  match dictGet cache.entries story_id with
  | some inst => (inst, cache)
  | none =>
    (cache.nextInstance,
     { entries := dictSet cache.entries story_id cache.nextInstance,
       nextInstance := cache.nextInstance + 1 })

/-- Sequence of _get_orchestrator calls executed one after another, the only
schedules the serialized atomic steps admit. -/
def run_get_orchestrator (cache : OrchestratorCache) : List String → OrchestratorCache
  | [] => cache
  | sid :: rest => run_get_orchestrator (get_orchestrator cache sid).2 rest

/-- Sample story row used by concrete witnesses. -/
def sampleStory : Story :=
  { id := "s1", genre := "science fiction", theme := "exploration", setting := none }

/-- Sample empty database. -/
def sampleDbEmpty : Db :=
  { stories := [], characters := [], sections := [], changes := [] }

/-- Sample database holding one story and nothing else. -/
def sampleDbStoryOnly : Db :=
  { stories := [sampleStory], characters := [], sections := [], changes := [] }

/-- Sample intro section row. -/
def sampleSection : StorySection :=
  { id := "sec0", story_id := "s1", text := "You wake up.", order := 1 }

/-- Sample database holding one story with one section and zero characters,
the state produced by story creation with an AI introduction. -/
def sampleDbStoryWithSection : Db :=
  { stories := [sampleStory], characters := [], sections := [sampleSection], changes := [] }

/-- Sample uninitialized orchestrator for the sample story. -/
def sampleOrch : Orchestrator :=
  { story_id := "s1", character_agents := [], initialized := false }

/-- Sample character-agent environment returning a bare reaction. -/
def sampleReact : String → Reaction :=
  fun _ => { emotions := none, motivation := none }

/-- Sample per-call environment with a successful synthesis call. -/
def sampleEnv : CallEnv :=
  { react := sampleReact, synth := Except.ok "t", user_input := "go" }

/-! General lemmas about the embedded dict operations. -/

theorem dictGet_nil {α : Type} (k : String) : dictGet ([] : List (String × α)) k = none := rfl

theorem dictGet_dictSet {α : Type} (d : List (String × α)) (k : String) (v : α) (k' : String) :
    dictGet (dictSet d k v) k' = if k' = k then some v else dictGet d k' := by
  induction d with
  | nil =>
    by_cases h : k' = k
    · subst h
      simp [dictSet, dictGet]
    · have h2 : ¬ k = k' := fun hc => h hc.symm
      simp [dictSet, dictGet, h, h2]
  | cons p rest ih =>
    obtain ⟨k0, v0⟩ := p
    by_cases h0 : k0 = k
    · subst h0
      by_cases h : k' = k0
      · subst h
        simp [dictSet, dictGet]
      · have h2 : ¬ k0 = k' := fun hc => h hc.symm
        simp [dictSet, dictGet, h, h2]
    · by_cases h : k' = k0
      · have hne : ¬ k' = k := by
          rw [h]
          intro hc
          exact h0 hc
        have h2 : k0 = k' := h.symm
        simp [dictSet, dictGet, h0, hne, h2]
      · have h2 : ¬ k0 = k' := fun hc => h hc.symm
        simp [dictSet, dictGet, h0, h2, ih]

theorem dictGet_dictSet_self {α : Type} (d : List (String × α)) (k : String) (v : α) :
    dictGet (dictSet d k v) k = some v := by
  simp [dictGet_dictSet]

theorem dictGet_dictSet_ne {α : Type} (d : List (String × α)) (k : String) (v : α)
    (k' : String) (h : k' ≠ k) : dictGet (dictSet d k v) k' = dictGet d k' := by
  simp [dictGet_dictSet, h]

theorem mem_dictKeys_iff {α : Type} (d : List (String × α)) (k : String) :
    k ∈ dictKeys d ↔ (dictGet d k).isSome := by
  induction d with
  | nil => simp [dictKeys, dictGet]
  | cons p rest ih =>
    obtain ⟨k0, v0⟩ := p
    rw [show dictKeys ((k0, v0) :: rest) = k0 :: dictKeys rest from rfl]
    by_cases h : k0 = k
    · subst h
      simp [dictGet]
    · have h2 : ¬ k = k0 := fun hc => h hc.symm
      simp [dictGet, h, h2, ih]

theorem dictKeys_dictSet {α : Type} (d : List (String × α)) (k : String) (v : α) (k' : String) :
    k' ∈ dictKeys (dictSet d k v) ↔ k' = k ∨ k' ∈ dictKeys d := by
  rw [mem_dictKeys_iff, mem_dictKeys_iff, dictGet_dictSet]
  by_cases h : k' = k <;> simp [h]

theorem get_sections_congr (db db2 : Db) (sid : String) (h : db2.sections = db.sections) :
    get_sections_by_story_id db2 sid = get_sections_by_story_id db sid := by
  unfold get_sections_by_story_id
  rw [h]

theorem get_by_id_story_congr (db db2 : Db) (sid : String) (h : db2.stories = db.stories) :
    get_by_id_story db2 sid = get_by_id_story db sid := by
  unfold get_by_id_story
  rw [h]

theorem apply_reaction_preserves (sections : List StorySection) (u : String)
    (db : Db) (e : String × Reaction) :
    (apply_reaction sections u db e).sections = db.sections
    ∧ (apply_reaction sections u db e).stories = db.stories := by
  obtain ⟨cid, r⟩ := e
  obtain ⟨emo, mot⟩ := r
  cases emo with
  | none => exact ⟨rfl, rfl⟩
  | some emotions =>
    simp only [apply_reaction]
    cases hc : get_by_id_character db cid with
    | none => exact ⟨rfl, rfl⟩
    | some character =>
      cases hl : sections.getLast? with
      | none => exact ⟨rfl, rfl⟩
      | some latest =>
        simp [update_character_traits, hc]

theorem update_story_state_preserves (db : Db) (sections : List StorySection)
    (u : String) (rs : List (String × Reaction)) :
    (update_story_state db sections u rs).sections = db.sections
    ∧ (update_story_state db sections u rs).stories = db.stories := by
  induction rs generalizing db with
  | nil => exact ⟨rfl, rfl⟩
  | cons e rest ih =>
    simp only [update_story_state, List.foldl_cons] at *
    obtain ⟨h1, h2⟩ := ih (apply_reaction sections u db e)
    obtain ⟨g1, g2⟩ := apply_reaction_preserves sections u db e
    exact ⟨h1.trans g1, h2.trans g2⟩

theorem resolve_active_preserves (db : Db) (sid : String) :
    (resolve_active_characters db sid).1.sections = db.sections
    ∧ (resolve_active_characters db sid).1.stories = db.stories
    ∧ (resolve_active_characters db sid).1.changes = db.changes := by
  unfold resolve_active_characters create_character
  by_cases h : (get_characters_by_story_id db sid).isEmpty <;> simp [h]

theorem continuation_finish_preserves (db1 : Db) (orch1 : Orchestrator)
    (synth : Except PyErr String) (u : String) (rs : List (String × Reaction)) :
    (continuation_finish db1 orch1 synth u rs).1.sections = db1.sections
    ∧ (continuation_finish db1 orch1 synth u rs).1.stories = db1.stories := by
  simp only [continuation_finish]
  cases hst : get_by_id_story db1 orch1.story_id with
  | none => exact ⟨rfl, rfl⟩
  | some st =>
    cases synth with
    | error e => exact ⟨rfl, rfl⟩
    | ok c => exact update_story_state_preserves db1 _ u rs

/-- Characterization of the continuation tail when the story row is
present. -/
theorem continuation_finish_story_present (db1 : Db) (orch1 : Orchestrator)
    (synth : Except PyErr String) (u : String) (rs : List (String × Reaction))
    (st : Story) (hst : get_by_id_story db1 orch1.story_id = some st) :
    continuation_finish db1 orch1 synth u rs
      = match synth with
        | Except.error e => (db1, orch1, Except.error e)
        | Except.ok c =>
          (update_story_state db1 (get_sections_by_story_id db1 orch1.story_id) u rs,
           orch1, Except.ok c) := by
  simp only [continuation_finish, hst]

theorem continuation_body_preserves (db : Db) (orch : Orchestrator)
    (react : String → Reaction) (synth : Except PyErr String)
    (u : String) (a : Option (List String)) :
    (continuation_body db orch react synth u a).1.sections = db.sections
    ∧ (continuation_body db orch react synth u a).1.stories = db.stories := by
  simp only [continuation_body]
  by_cases h1 : (ensure_initialized db orch).1 = true
  · simp only [h1, not_true, if_neg, if_false]
    rcases a with _ | l
    · obtain ⟨p1, p2, p3⟩ := resolve_active_preserves db (ensure_initialized db orch).2.story_id
      obtain ⟨q1, q2⟩ := continuation_finish_preserves
        (resolve_active_characters db (ensure_initialized db orch).2.story_id).1
        (ensure_initialized db orch).2 synth u
        (get_character_reactions (ensure_initialized db orch).2.character_agents
          (resolve_active_characters db (ensure_initialized db orch).2.story_id).2 react)
      exact ⟨q1.trans p1, q2.trans p2⟩
    · by_cases hl : l.isEmpty
      · simp only [hl, if_pos]
        obtain ⟨p1, p2, p3⟩ := resolve_active_preserves db (ensure_initialized db orch).2.story_id
        obtain ⟨q1, q2⟩ := continuation_finish_preserves
          (resolve_active_characters db (ensure_initialized db orch).2.story_id).1
          (ensure_initialized db orch).2 synth u
          (get_character_reactions (ensure_initialized db orch).2.character_agents
            (resolve_active_characters db (ensure_initialized db orch).2.story_id).2 react)
        exact ⟨q1.trans p1, q2.trans p2⟩
      · simp only [hl, if_neg, Bool.false_eq_true, if_false]
        exact continuation_finish_preserves db (ensure_initialized db orch).2 synth u
          (get_character_reactions (ensure_initialized db orch).2.character_agents l react)
  · simp only [h1, not_false_iff, if_true, Bool.not_eq_true]
    simp [h1]

theorem generate_story_continuation_preserves (db : Db) (orch : Orchestrator)
    (react : String → Reaction) (synth : Except PyErr String)
    (u : String) (a : Option (List String)) :
    (generate_story_continuation db orch react synth u a).1.sections = db.sections
    ∧ (generate_story_continuation db orch react synth u a).1.stories = db.stories := by
  simp only [generate_story_continuation]
  obtain ⟨h1, h2⟩ := continuation_body_preserves db orch react synth u a
  cases hr : (continuation_body db orch react synth u a).2.2 with
  | ok t =>
    constructor
    · simpa using h1
    · simpa using h2
  | error e =>
    constructor
    · simpa using h1
    · simpa using h2

theorem mem_foldl_reactions (agents : List String) (react : String → Reaction)
    (ids : List String) (acc : List (String × Reaction)) (cid : String) :
    cid ∈ dictKeys (ids.foldl (fun acc character_id =>
        if character_id ∈ agents then dictSet acc character_id (react character_id)
        else acc) acc)
      ↔ cid ∈ dictKeys acc ∨ (cid ∈ ids ∧ cid ∈ agents) := by
  induction ids generalizing acc with
  | nil => simp
  | cons i rest ih =>
    simp only [List.foldl_cons]
    by_cases hi : i ∈ agents
    · rw [if_pos hi, ih, dictKeys_dictSet]
      simp only [List.mem_cons]
      constructor
      · rintro ((rfl | h) | h)
        · exact Or.inr ⟨Or.inl rfl, hi⟩
        · exact Or.inl h
        · exact Or.inr ⟨Or.inr h.1, h.2⟩
      · rintro (h | ⟨(rfl | h), hmem⟩)
        · exact Or.inl (Or.inr h)
        · exact Or.inl (Or.inl rfl)
        · exact Or.inr ⟨h, hmem⟩
    · rw [if_neg hi, ih]
      simp only [List.mem_cons]
      constructor
      · rintro (h | h)
        · exact Or.inl h
        · exact Or.inr ⟨Or.inr h.1, h.2⟩
      · rintro (h | ⟨(rfl | h), hmem⟩)
        · exact Or.inl h
        · exact (hi hmem).elim
        · exact Or.inr ⟨h, hmem⟩

theorem mem_dictKeys_get_character_reactions (agents : List String)
    (ids : List String) (react : String → Reaction) (cid : String) :
    cid ∈ dictKeys (get_character_reactions agents ids react)
      ↔ cid ∈ ids ∧ cid ∈ agents := by
  unfold get_character_reactions
  rw [mem_foldl_reactions]
  simp [dictKeys]

theorem get_character_reactions_no_agents (ids : List String) (react : String → Reaction) :
    get_character_reactions [] ids react = [] := by
  unfold get_character_reactions
  induction ids with
  | nil => rfl
  | cons i rest ih => simpa using ih

theorem maxOrderDefault0_append_single (l : List Int) (a : Int) (h0 : 0 ≤ a) :
    maxOrderDefault0 (l ++ [a]) = max (maxOrderDefault0 l) a := by
  cases l with
  | nil => simp [maxOrderDefault0, max_eq_right h0]
  | cons x xs => simp [maxOrderDefault0, List.foldl_append]

theorem maxOrderDefault0_ordersOneTo (k : Nat) :
    maxOrderDefault0 (ordersOneTo k) = (k : Int) := by
  induction k with
  | zero => rfl
  | succ k ih =>
    rw [show ordersOneTo (k + 1) = ordersOneTo k ++ [(k : Int) + 1] from rfl,
      maxOrderDefault0_append_single _ _ (by positivity), ih]
    rw [max_eq_right (by push_cast; omega)]
    push_cast
    ring

theorem three_le_pad_suggestions_length (s : List String) :
    3 ≤ (pad_suggestions s).length := by
  induction s using pad_suggestions.induct with
  | case1 s h ih =>
    rw [pad_suggestions]
    rw [dif_pos h]
    exact ih
  | case2 s h =>
    rw [pad_suggestions]
    rw [dif_neg h]
    omega

/-- C2: generate_story_suggestions returns a list of exactly 3 suggestion
strings for every story state and every narrative director output carrying
0, 1, 2 or more narrative options, on every control path: the decorator
fallback, the initialization fallback, the empty-story fallback, and the
collect-pad-truncate path. -/
theorem generate_story_suggestions_returns_exactly_three
    (db : Db) (orch : Orchestrator) (rand : Nat → Nat)
    (director : Option (List DirectorOption)) (errored : Bool) :
    (generate_story_suggestions db orch rand director errored).length = 3 := by
  unfold generate_story_suggestions
  by_cases he : errored = true
  · simp [he, story_suggestions_fallback]
  · simp only [he, Bool.false_eq_true, if_false]
    by_cases hi : (ensure_initialized db orch).1 = true
    · simp only [hi, not_true, if_false]
      cases hl : (get_sections_by_story_id db (ensure_initialized db orch).2.story_id).getLast? with
      | none => simp [hl]
      | some latest =>
        simp only [hl]
        rw [List.length_take]
        have h3 := three_le_pad_suggestions_length
          (match director with
           | some options => if options.isEmpty then [] else collect_suggestions rand options
           | none => [])
        omega
    · simp [hi]

/-- C3 (amended): on a raw response that fails to parse, each variant
returns its degraded output without raising; the world-state and
narrative-director degraded outputs are fixed values, while the character
degraded output is fixed in every field except dialogue, which echoes the
first line of the raw response (or its first 100 characters when it has no
newline). -/
theorem parse_failure_degraded_outputs (response : String) :
    WorldStateAgent_process_response none response = worldStateParseDefault
    ∧ NarrativeDirectorAgent_process_response none response = narrativeDirectorParseDefault
    ∧ CharacterAgent_process_response none response
        = characterParseDefault (some (firstLineOrFirst100 response)) :=
  ⟨rfl, rfl, rfl⟩

/-- C3 (counterexample): two raw responses that both fail to parse yield
different character degraded outputs, so the character parse fallback is not
independent of the raw response text. -/
theorem character_parse_fallback_depends_on_response :
    CharacterAgent_process_response none "A" ≠ CharacterAgent_process_response none "B" := by
  decide

theorem get_orchestrator_cached (cache : OrchestratorCache) (story_id : String) :
    dictGet (get_orchestrator cache story_id).2.entries story_id
      = some (get_orchestrator cache story_id).1 := by
  unfold get_orchestrator
  cases h : dictGet cache.entries story_id with
  | some inst => simpa using h
  | none => simp [dictGet_dictSet_self]

theorem get_orchestrator_preserves_entry (cache : OrchestratorCache)
    (story_id sid2 : String) (i : Nat)
    (h : dictGet cache.entries story_id = some i) :
    dictGet (get_orchestrator cache sid2).2.entries story_id = some i := by
  unfold get_orchestrator
  cases h2 : dictGet cache.entries sid2 with
  | some inst => simpa using h
  | none =>
    have hne : story_id ≠ sid2 := by
      intro he
      rw [he, h2] at h
      cases h
    simp [dictGet_dictSet_ne _ _ _ _ hne, h]

theorem run_get_orchestrator_preserves_entry (others : List String) :
    ∀ (cache : OrchestratorCache) (story_id : String) (i : Nat),
      dictGet cache.entries story_id = some i →
      dictGet (run_get_orchestrator cache others).entries story_id = some i := by
  induction others with
  | nil =>
    intro cache story_id i h
    exact h
  | cons s rest ih =>
    intro cache story_id i h
    exact ih _ _ _ (get_orchestrator_preserves_entry cache story_id s i h)

/-- C9: the get-or-create operation of the orchestrator cache is idempotent.
A _get_orchestrator call runs atomically on the event loop (its await chain
never yields, see get_orchestrator), so any two calls execute one after the
other: an immediate repeat for the same story id returns the same instance
and leaves the cache unchanged, and the instance bound to a story id
survives any interleaved sequence of further calls, so a later call for the
same story id still returns the same instance — at most one live
orchestrator per story id. -/
theorem get_orchestrator_idempotent (cache : OrchestratorCache) (story_id : String)
    (others : List String) :
    (get_orchestrator ((get_orchestrator cache story_id).2) story_id).1
      = (get_orchestrator cache story_id).1
    ∧ (get_orchestrator ((get_orchestrator cache story_id).2) story_id).2
      = (get_orchestrator cache story_id).2
    ∧ (get_orchestrator
          (run_get_orchestrator (get_orchestrator cache story_id).2 others) story_id).1
      = (get_orchestrator cache story_id).1 := by
  refine ⟨?_, ?_, ?_⟩
  · conv_lhs => rw [get_orchestrator]
    rw [get_orchestrator_cached]
  · conv_lhs => rw [get_orchestrator]
    rw [get_orchestrator_cached]
  · have hrun := run_get_orchestrator_preserves_entry others
      (get_orchestrator cache story_id).2 story_id
      (get_orchestrator cache story_id).1
      (get_orchestrator_cached cache story_id)
    conv_lhs => rw [get_orchestrator]
    rw [hrun]

theorem ensure_initialized_story_present (db : Db) (orch : Orchestrator) (st : Story)
    (hst : get_by_id_story db orch.story_id = some st) :
    (ensure_initialized db orch).1 = true
    ∧ (ensure_initialized db orch).2.story_id = orch.story_id := by
  unfold ensure_initialized
  by_cases horch : orch.initialized = true
  · simp [horch]
  · simp [horch, hst]

theorem continuation_finish_result (db1 : Db) (orch1 : Orchestrator)
    (synth : Except PyErr String) (u : String) (rs : List (String × Reaction)) (st : Story)
    (hst : get_by_id_story db1 orch1.story_id = some st) :
    (continuation_finish db1 orch1 synth u rs).2.2 = synth := by
  rw [continuation_finish_story_present db1 orch1 synth u rs st hst]
  cases synth <;> rfl

theorem continuation_body_result (db : Db) (orch : Orchestrator)
    (react : String → Reaction) (synth : Except PyErr String)
    (u : String) (a : Option (List String)) (st : Story)
    (hst : get_by_id_story db orch.story_id = some st) :
    (continuation_body db orch react synth u a).2.2 = synth := by
  obtain ⟨h1, h2⟩ := ensure_initialized_story_present db orch st hst
  simp only [continuation_body, h1, not_true, Bool.not_true, if_false]
  rcases a with _ | l
  · apply continuation_finish_result _ _ _ _ _ st
    rw [get_by_id_story_congr _ _ _
      (resolve_active_preserves db (ensure_initialized db orch).2.story_id).2.1]
    rw [h2]
    exact hst
  · by_cases hl : l.isEmpty = true
    · simp only [hl, if_pos]
      apply continuation_finish_result _ _ _ _ _ st
      rw [get_by_id_story_congr _ _ _
        (resolve_active_preserves db (ensure_initialized db orch).2.story_id).2.1]
      rw [h2]
      exact hst
    · simp only [hl, Bool.false_eq_true, if_false]
      apply continuation_finish_result _ _ _ _ _ st
      rw [h2]
      exact hst

/-- C4: when the final synthesis completion call fails, the decorated
generate_story_continuation returns the story continuation fallback text:
the template echoing the lowercased user input (a leading i-space pair
stripped when present) and ending with the closing prompt asking what the
user will do next. -/
theorem synthesis_failure_returns_fallback
    (db : Db) (orch : Orchestrator) (react : String → Reaction) (e : PyErr)
    (u : String) (a : Option (List String)) (st : Story)
    (hst : get_by_id_story db orch.story_id = some st) :
    (generate_story_continuation db orch react (Except.error e) u a).2.2
      = Except.ok (story_continuation_fallback u)
    ∧ story_continuation_fallback u
        = "You decide to " ++ fallbackEcho u ++ ".\n\nThe world around you responds to your actions. Despite some uncertainty about what happens next, you continue forward with determination.\n\nWhat will you do next?"
    ∧ ∃ front, story_continuation_fallback u = front ++ "What will you do next?" := by
  refine ⟨?_, rfl, ?_⟩
  · have hb := continuation_body_result db orch react (Except.error e) u a st hst
    simp only [generate_story_continuation]
    rw [hb]
  · refine ⟨"You decide to " ++ fallbackEcho u ++ ".\n\nThe world around you responds to your actions. Despite some uncertainty about what happens next, you continue forward with determination.\n\n", ?_⟩
    have htail : (".\n\nThe world around you responds to your actions. Despite some uncertainty about what happens next, you continue forward with determination.\n\nWhat will you do next?" : String)
        = ".\n\nThe world around you responds to your actions. Despite some uncertainty about what happens next, you continue forward with determination.\n\n" ++ "What will you do next?" := by
      rfl
    unfold story_continuation_fallback
    rw [htail, ← String.append_assoc]

/-- C4 (witness): concrete run in which the synthesis call fails. -/
theorem synthesis_failure_returns_fallback_witness :
    get_by_id_story sampleDbStoryOnly sampleOrch.story_id = some sampleStory
    ∧ (generate_story_continuation sampleDbStoryOnly sampleOrch sampleReact
          (Except.error PyErr.providerError) "I look around" none).2.2
        = Except.ok (story_continuation_fallback "I look around") :=
  ⟨by decide,
   (synthesis_failure_returns_fallback sampleDbStoryOnly sampleOrch sampleReact
      PyErr.providerError "I look around" none sampleStory (by decide)).1⟩

/-- C5 (amended): addressability failures are surfaced only by the service
layer: update_character_traits on a missing character raises ValueError,
which db_operation_handler converts into a distinct HTTP 400 entity-not-found
condition; but generate_story_continuation on a missing story does not
surface the condition — the initialization failure is absorbed and the
degraded fallback response is returned as a successful result. -/
theorem not_found_surfacing_split
    (db : Db) (character_id section_id change_description : String) (nt : Traits)
    (orch : Orchestrator) (react : String → Reaction) (synth : Except PyErr String)
    (u : String) (a : Option (List String))
    (hchar : get_by_id_character db character_id = none)
    (hstory : get_by_id_story db orch.story_id = none)
    (hinit : orch.initialized = false) :
    db_operation_handler
        (update_character_traits db character_id section_id change_description nt)
      = Except.error (PyErr.httpError 400
          ("Character with ID " ++ character_id ++ " not found"))
    ∧ (generate_story_continuation db orch react synth u a).2.2
        = Except.ok (generate_fallback_response none u) := by
  constructor
  · simp [db_operation_handler, update_character_traits, hchar]
  · simp [generate_story_continuation, continuation_body, ensure_initialized, hinit, hstory]

/-- C5 (witness): concrete missing character and missing story. -/
theorem not_found_surfacing_split_witness :
    get_by_id_character sampleDbEmpty "c9" = none
    ∧ get_by_id_story sampleDbEmpty sampleOrch.story_id = none
    ∧ sampleOrch.initialized = false
    ∧ db_operation_handler
        (update_character_traits sampleDbEmpty "c9" "sec0" "d" [])
      = Except.error (PyErr.httpError 400 ("Character with ID " ++ "c9" ++ " not found"))
    ∧ (generate_story_continuation sampleDbEmpty sampleOrch sampleReact
          (Except.ok "text") "look" none).2.2
        = Except.ok (generate_fallback_response none "look") := by
  refine ⟨by decide, by decide, rfl, ?_, ?_⟩
  · exact (not_found_surfacing_split sampleDbEmpty "c9" "sec0" "d" [] sampleOrch sampleReact
      (Except.ok "text") "look" none (by decide) (by decide) rfl).1
  · exact (not_found_surfacing_split sampleDbEmpty "c9" "sec0" "d" [] sampleOrch sampleReact
      (Except.ok "text") "look" none (by decide) (by decide) rfl).2

/-- C5 (counterexample): at a concrete input whose story id resolves to no
story row, the pipeline operation generate_story_continuation returns a
successful degraded fallback instead of surfacing an entity-not-found
condition, refuting the claim for this pipeline operation. -/
theorem missing_story_absorbed_counterexample :
    (generate_story_continuation sampleDbEmpty sampleOrch sampleReact
        (Except.ok "text") "look around" none).2.2
      = Except.ok (generate_fallback_response none "look around") := by
  rfl

theorem ensure_initialized_agents_empty (db : Db) (orch : Orchestrator) (st : Story)
    (hst : get_by_id_story db orch.story_id = some st)
    (hchars : get_characters_by_story_id db orch.story_id = [])
    (hagents : orch.initialized = true → orch.character_agents = []) :
    (ensure_initialized db orch).2.character_agents = [] := by
  unfold ensure_initialized
  by_cases horch : orch.initialized = true
  · simp [horch, hagents horch]
  · simp [horch, hst, hchars]

theorem continuation_body_zero_characters
    (db : Db) (orch : Orchestrator) (react : String → Reaction)
    (synth : Except PyErr String) (u : String) (st : Story)
    (hst : get_by_id_story db orch.story_id = some st)
    (hchars : get_characters_by_story_id db orch.story_id = [])
    (hagents : orch.initialized = true → orch.character_agents = []) :
    continuation_body db orch react synth u none
      = ((create_character db orch.story_id "Protagonist"
            "The main character of the story, a rebellious figure in a dystopian world."
            [("courage", TraitValue.num 0.8), ("intelligence", TraitValue.num 0.7),
             ("determination", TraitValue.num 0.9)] 1).1,
         (ensure_initialized db orch).2, synth) := by
  obtain ⟨h1, h2⟩ := ensure_initialized_story_present db orch st hst
  have hA := ensure_initialized_agents_empty db orch st hst hchars hagents
  have hresolve : resolve_active_characters db (ensure_initialized db orch).2.story_id
      = ((create_character db orch.story_id "Protagonist"
            "The main character of the story, a rebellious figure in a dystopian world."
            [("courage", TraitValue.num 0.8), ("intelligence", TraitValue.num 0.7),
             ("determination", TraitValue.num 0.9)] 1).1,
         [(create_character db orch.story_id "Protagonist"
            "The main character of the story, a rebellious figure in a dystopian world."
            [("courage", TraitValue.num 0.8), ("intelligence", TraitValue.num 0.7),
             ("determination", TraitValue.num 0.9)] 1).2.id]) := by
    rw [h2]
    unfold resolve_active_characters
    simp [hchars]
  simp only [continuation_body, h1, not_true, Bool.not_true, if_false]
  rw [hresolve, hA, get_character_reactions_no_agents]
  have hst1 : get_by_id_story
      (create_character db orch.story_id "Protagonist"
        "The main character of the story, a rebellious figure in a dystopian world."
        [("courage", TraitValue.num 0.8), ("intelligence", TraitValue.num 0.7),
         ("determination", TraitValue.num 0.9)] 1).1
      (ensure_initialized db orch).2.story_id = some st := by
    rw [get_by_id_story_congr _ _ _ rfl, h2]
    exact hst
  rw [continuation_finish_story_present _ _ _ _ _ st hst1]
  cases synth <;> rfl

theorem generate_zero_characters
    (db : Db) (orch : Orchestrator) (react : String → Reaction)
    (synth : Except PyErr String) (u : String) (st : Story)
    (hst : get_by_id_story db orch.story_id = some st)
    (hchars : get_characters_by_story_id db orch.story_id = [])
    (hagents : orch.initialized = true → orch.character_agents = []) :
    generate_story_continuation db orch react synth u none
      = ((create_character db orch.story_id "Protagonist"
            "The main character of the story, a rebellious figure in a dystopian world."
            [("courage", TraitValue.num 0.8), ("intelligence", TraitValue.num 0.7),
             ("determination", TraitValue.num 0.9)] 1).1,
         (ensure_initialized db orch).2,
         Except.ok (match synth with
                    | Except.ok t => t
                    | Except.error _ => story_continuation_fallback u)) := by
  simp only [generate_story_continuation,
    continuation_body_zero_characters db orch react synth u st hst hchars hagents]
  cases synth <;> rfl

/-- C10: the reactions loop consults only requested ids with a registered
character agent and silently omits every other id; in a zero-character
continuation run the default Protagonist created inside the call is never
added to character_agents, its reactions map is empty, and no
CharacterChange row is created. -/
theorem protagonist_not_registered
    (db : Db) (orch : Orchestrator) (react : String → Reaction)
    (synth : Except PyErr String) (u : String) (st : Story)
    (hst : get_by_id_story db orch.story_id = some st)
    (hchars : get_characters_by_story_id db orch.story_id = [])
    (hagents : orch.initialized = true → orch.character_agents = []) :
    (∀ (agents ids : List String) (r : String → Reaction) (cid : String),
        cid ∈ dictKeys (get_character_reactions agents ids r) ↔ cid ∈ ids ∧ cid ∈ agents)
    ∧ (generate_story_continuation db orch react synth u none).2.1.character_agents = []
    ∧ (∀ ids, get_character_reactions
          (generate_story_continuation db orch react synth u none).2.1.character_agents
          ids react = [])
    ∧ (generate_story_continuation db orch react synth u none).1.changes = db.changes := by
  have hgen := generate_zero_characters db orch react synth u st hst hchars hagents
  have hA := ensure_initialized_agents_empty db orch st hst hchars hagents
  refine ⟨fun agents ids r cid => mem_dictKeys_get_character_reactions agents ids r cid,
    ?_, ?_, ?_⟩
  · rw [hgen]
    exact hA
  · intro ids
    rw [hgen]
    show get_character_reactions (ensure_initialized db orch).2.character_agents ids react = []
    rw [hA]
    exact get_character_reactions_no_agents ids react
  · rw [hgen]
    rfl

/-- C10 (witness): concrete zero-character continuation run. -/
theorem protagonist_not_registered_witness :
    get_by_id_story sampleDbStoryOnly sampleOrch.story_id = some sampleStory
    ∧ get_characters_by_story_id sampleDbStoryOnly sampleOrch.story_id = []
    ∧ (generate_story_continuation sampleDbStoryOnly sampleOrch sampleReact
          (Except.ok "t") "go" none).2.1.character_agents = []
    ∧ (generate_story_continuation sampleDbStoryOnly sampleOrch sampleReact
          (Except.ok "t") "go" none).1.changes = sampleDbStoryOnly.changes :=
  ⟨by decide, by decide,
   (protagonist_not_registered sampleDbStoryOnly sampleOrch sampleReact (Except.ok "t")
      "go" sampleStory (by decide) (by decide) (by decide)).2.1,
   (protagonist_not_registered sampleDbStoryOnly sampleOrch sampleReact (Except.ok "t")
      "go" sampleStory (by decide) (by decide) (by decide)).2.2.2⟩

/-- C8 (amended): on a story with zero characters and no explicit active
set, exactly one default Protagonist with the fixed description, trait seed
and importance is created and used; the resulting StorySection has order
equal to max of the existing orders (default 0) plus one, which equals 1
exactly when the story has no sections yet. -/
theorem default_protagonist_and_first_order
    (db : Db) (orch : Orchestrator) (react : String → Reaction)
    (synth : Except PyErr String) (u : String) (st : Story)
    (hst : get_by_id_story db orch.story_id = some st)
    (hchars : get_characters_by_story_id db orch.story_id = [])
    (hagents : orch.initialized = true → orch.character_agents = []) :
    get_characters_by_story_id
        (AgentService_generate_continuation db orch react synth orch.story_id u).1
        orch.story_id
      = [{ id := freshCharacterId db, story_id := orch.story_id, name := "Protagonist",
           description := "The main character of the story, a rebellious figure in a dystopian world.",
           traits := [("courage", TraitValue.num 0.8), ("intelligence", TraitValue.num 0.7),
                      ("determination", TraitValue.num 0.9)],
           importance := 1 }]
    ∧ (AgentService_generate_continuation db orch react synth orch.story_id u).2.2.order
        = maxOrderDefault0 ((get_sections_by_story_id db orch.story_id).map (fun s => s.order)) + 1
    ∧ (get_sections_by_story_id db orch.story_id = [] →
        (AgentService_generate_continuation db orch react synth orch.story_id u).2.2.order = 1) := by
  have hgen := generate_zero_characters db orch react synth u st hst hchars hagents
  have hsec : (generate_story_continuation db orch react synth u none).1.sections
      = db.sections := by
    rw [hgen]
    rfl
  refine ⟨?_, ?_, ?_⟩
  · simp only [AgentService_generate_continuation, hgen]
    unfold get_characters_by_story_id create_character
    simp only [List.filter_append]
    unfold get_characters_by_story_id at hchars
    simp [hchars]
  · simp only [AgentService_generate_continuation]
    rw [get_sections_congr _ _ _ hsec]
  · intro hempty
    simp only [AgentService_generate_continuation]
    rw [get_sections_congr _ _ _ hsec, hempty]
    rfl

/-- C8 (witness): concrete run on the sample story with zero characters and
zero sections. -/
theorem default_protagonist_and_first_order_witness :
    get_by_id_story sampleDbStoryOnly sampleOrch.story_id = some sampleStory
    ∧ get_characters_by_story_id sampleDbStoryOnly sampleOrch.story_id = []
    ∧ get_sections_by_story_id sampleDbStoryOnly sampleOrch.story_id = []
    ∧ (AgentService_generate_continuation sampleDbStoryOnly sampleOrch sampleReact
          (Except.ok "t") sampleOrch.story_id "go").2.2.order = 1 :=
  ⟨by decide, by decide, by decide,
   (default_protagonist_and_first_order sampleDbStoryOnly sampleOrch sampleReact
      (Except.ok "t") "go" sampleStory (by decide) (by decide) (by decide)).2.2 (by decide)⟩

/-- C8 (counterexample): on a story with zero characters but one existing
section, the state produced by story creation with an AI introduction, the
resulting StorySection has order 2, not 1. -/
theorem zero_character_story_order_not_one :
    get_characters_by_story_id sampleDbStoryWithSection "s1" = []
    ∧ (AgentService_generate_continuation sampleDbStoryWithSection sampleOrch sampleReact
        (Except.ok "next part") "s1" "go").2.2.order = 2 := by
  refine ⟨by decide, ?_⟩
  decide

theorem filter_sections_append (d : Db) (sec : StorySection) (story_id : String)
    (hsec : sec.story_id = story_id) :
    get_sections_by_story_id { d with sections := d.sections ++ [sec] } story_id
      = get_sections_by_story_id d story_id ++ [sec] := by
  unfold get_sections_by_story_id
  simp [List.filter_append, hsec]

theorem service_step_orders (db : Db) (orch : Orchestrator) (e : CallEnv)
    (story_id : String) (k : Nat)
    (h : (get_sections_by_story_id db story_id).map (fun s => s.order) = ordersOneTo k) :
    (get_sections_by_story_id
        (AgentService_generate_continuation db orch e.react e.synth story_id e.user_input).1
        story_id).map (fun s => s.order)
      = ordersOneTo (k + 1) := by
  simp only [AgentService_generate_continuation]
  have hsec := (generate_story_continuation_preserves db orch e.react e.synth
    e.user_input none).1
  have hcongr := get_sections_congr db
    (generate_story_continuation db orch e.react e.synth e.user_input none).1 story_id hsec
  rw [filter_sections_append _ _ _ rfl, List.map_append, List.map_cons, List.map_nil,
    hcongr, h]
  show ordersOneTo k ++ [maxOrderDefault0 (ordersOneTo k) + 1] = ordersOneTo (k + 1)
  rw [maxOrderDefault0_ordersOneTo]
  rfl

theorem run_continuations_orders (story_id : String) (envs : List CallEnv) :
    ∀ (db : Db) (orch : Orchestrator) (k : Nat),
      (get_sections_by_story_id db story_id).map (fun s => s.order) = ordersOneTo k →
      (get_sections_by_story_id (run_continuations story_id db orch envs).1 story_id).map
        (fun s => s.order) = ordersOneTo (k + envs.length) := by
  induction envs with
  | nil =>
    intro db orch k h
    simpa using h
  | cons e rest ih =>
    intro db orch k h
    rw [show run_continuations story_id db orch (e :: rest)
        = run_continuations story_id
            (AgentService_generate_continuation db orch e.react e.synth story_id e.user_input).1
            (AgentService_generate_continuation db orch e.react e.synth story_id e.user_input).2.1
            rest from rfl]
    have hstep := service_step_orders db orch e story_id k h
    have hrec := ih
      (AgentService_generate_continuation db orch e.react e.synth story_id e.user_input).1
      (AgentService_generate_continuation db orch e.react e.synth story_id e.user_input).2.1
      (k + 1) hstep
    rw [show k + (e :: rest).length = k + 1 + rest.length from by
      simp [List.length_cons]
      omega]
    exact hrec

/-- C1: every newly persisted StorySection receives order max of the
existing orders (default 0) plus one, and any sequence of N continuation
calls on a story that starts with no sections yields section orders exactly
1 to N, with no gaps or repeats. -/
theorem section_orders_one_to_n (db : Db) (orch : Orchestrator) (story_id : String)
    (envs : List CallEnv)
    (h : get_sections_by_story_id db story_id = []) :
    (∀ (db0 : Db) (t : String),
        ((add_section_to_story db0 story_id t).2).order
          = maxOrderDefault0
              ((get_sections_by_story_id db0 story_id).map (fun s => s.order)) + 1)
    ∧ (get_sections_by_story_id (run_continuations story_id db orch envs).1 story_id).map
        (fun s => s.order) = ordersOneTo envs.length := by
  refine ⟨fun db0 t => rfl, ?_⟩
  have := run_continuations_orders story_id envs db orch 0 (by rw [h]; rfl)
  simpa using this

/-- C1 (witness): two continuation calls on the sample story that starts
without sections produce section orders 1 and 2. -/
theorem section_orders_one_to_n_witness :
    get_sections_by_story_id sampleDbStoryOnly "s1" = []
    ∧ (get_sections_by_story_id
          (run_continuations "s1" sampleDbStoryOnly sampleOrch [sampleEnv, sampleEnv]).1
          "s1").map (fun s => s.order) = ordersOneTo 2 :=
  ⟨rfl, (section_orders_one_to_n sampleDbStoryOnly sampleOrch "s1" [sampleEnv, sampleEnv] rfl).2⟩

end NarrativeService
